import Mathlib

/-!
Verification of the fat32 reader core against its specification.

The definitions below are a shallow embedding of the Rust sources:
  src/fat32/src/vfat/{fat.rs, cluster.rs, dir.rs, vfat.rs, cache.rs, file.rs}.
Machine integers are modelled as `Nat` with explicit masking/modulus where the
source wraps or masks; byte buffers are `List Nat`; fallible operations return
`Option`/`Except` or a result type with an explicit variant for a Rust panic.
-/

namespace Fat32

/-! ## Cluster and FAT entry (src/vfat/cluster.rs, src/vfat/fat.rs) -/

/-- Embeds `struct Cluster(u32)`. -/
structure Cluster where
  val : Nat
  deriving DecidableEq

/-- Embeds `impl From<u32> for Cluster`: `Cluster(raw_num & !(0xF << 28))`,
i.e. the raw value masked to its low 28 bits. -/
def Cluster.fromRaw (raw_num : Nat) : Cluster :=
  ⟨raw_num % 2 ^ 32 &&& 0x0FFFFFFF⟩

/-- Embeds `Cluster::id`. -/
def Cluster.id (c : Cluster) : Nat := c.val

/-- Embeds `enum Status` of fat.rs.  In the source, `Bad` is documented as
"The FAT entry corresponds to a bad (disk failed) cluster." -/
inductive Status where
  | Free : Status
  | Reserved : Status
  | Data : Cluster → Status
  | Bad : Status
  | Eoc : Nat → Status
  deriving DecidableEq

/-- Embeds `struct FatEntry(u32)`. -/
structure FatEntry where
  val : Nat
  deriving DecidableEq

/-- Embeds `FatEntry::status`.  The source matches, in this order:
`0x0000002..=0xFFFFFEF => Data`, `0xFFFFFF8..=0xFFFFFFF => Eoc`,
`1 | 0xFFFFFF0..=0xFFFFFF7 => Reserved`, `0 => Free`, `_ => unreachable!`.
After the 28-bit mask the four arms are exhaustive, so the unreachable arm is
folded into the final `else` (which is then only ever taken for id = 0).
Note that the source has no arm producing `Status.Bad`. -/
def FatEntry.status (e : FatEntry) : Status :=
  let cluster := Cluster.fromRaw e.val
  let i := cluster.id
  if 0x0000002 ≤ i ∧ i ≤ 0xFFFFFEF then Status.Data cluster
  else if 0xFFFFFF8 ≤ i ∧ i ≤ 0xFFFFFFF then Status.Eoc i
  else if i = 1 ∨ (0xFFFFFF0 ≤ i ∧ i ≤ 0xFFFFFF7) then Status.Reserved
  else Status.Free

/-! ## Directory records (src/vfat/dir.rs)

A directory record is 32 raw bytes (`VFatDirEntry` is a union of three
`repr(C, packed)` views over those bytes); we embed it as a byte list and
derive each view's fields by offset, little-endian. -/

/-- A 32-byte on-disk directory record (`VFatDirEntry`), as raw bytes. -/
def Dirent : Type := List Nat

/-- Byte `i` of a record (out-of-range reads as 0; all concrete records used
below have length 32). -/
def byteAt (d : Dirent) (i : Nat) : Nat := List.getD d i 0

/-- Little-endian 16-bit field at byte offset `i`. -/
def u16At (d : Dirent) (i : Nat) : Nat := byteAt d i + 256 * byteAt d (i + 1)

/-- Little-endian 32-bit field at byte offset `i`. -/
def u32At (d : Dirent) (i : Nat) : Nat := u16At d i + 65536 * u16At d (i + 2)

namespace VFatUnknownDirEntry

/-- `VFatUnknownDirEntry.seq`: byte 0. -/
def seq (d : Dirent) : Nat := byteAt d 0

/-- `VFatUnknownDirEntry.attribs`: byte 11. -/
def attribs (d : Dirent) : Nat := byteAt d 11

/-- `VFatUnknownDirEntry.dtype`: byte 12. -/
def dtype (d : Dirent) : Nat := byteAt d 12

/-- `VFatUnknownDirEntry.clust_num`: u16 at offset 26. -/
def clustNum (d : Dirent) : Nat := u16At d 26

end VFatUnknownDirEntry

/-- Embeds `impl From<&VFatUnknownDirEntry> for DirEntry`: a record is an LFN
slot iff `attribs == 0x0f && dtype == 0 && clust_num == 0`, else regular. -/
def isLfnRecord (d : Dirent) : Bool :=
  VFatUnknownDirEntry.attribs d == 0x0F && VFatUnknownDirEntry.dtype d == 0 &&
    VFatUnknownDirEntry.clustNum d == 0

namespace VFatRegularDirEntry

/-- `VFatRegularDirEntry.name`: bytes 0..8. -/
def nameBytes (d : Dirent) : List Nat := List.take 8 d

/-- `VFatRegularDirEntry.ext`: bytes 8..11. -/
def extBytes (d : Dirent) : List Nat := List.take 3 (List.drop 8 d)

/-- `VFatRegularDirEntry.attribs`: byte 11. -/
def attribs (d : Dirent) : Nat := byteAt d 11

/-- Embeds `enum RegularSeq`. -/
inductive RegularSeq where
  | Deleted : RegularSeq
  | EndOfDirectory : RegularSeq
  | Valid : RegularSeq
  deriving DecidableEq

/-- Embeds `VFatRegularDirEntry::seq`: matches on `name[0]`
(0xE5 deleted, 0 end of directory, otherwise valid). -/
def seq (d : Dirent) : RegularSeq :=
  if byteAt d 0 = 0xE5 then RegularSeq.Deleted
  else if byteAt d 0 = 0 then RegularSeq.EndOfDirectory
  else RegularSeq.Valid

/-- Embeds `VFatRegularDirEntry::checksum`: over the 11 bytes of name then
ext, `sum = ((sum & 1) << 7).wrapping_add(sum >> 1).wrapping_add(chr)` on u8
(the additions reduced mod 256). -/
def checksum (d : Dirent) : Nat :=
  List.foldl (fun sum chr => (((sum &&& 1) <<< 7) + (sum >>> 1) + chr) % 256) 0
    (nameBytes d ++ extBytes d)

/-- Embeds `VFatRegularDirEntry::start_cluster`:
`Cluster::from((hi_cluster_part << 16) | lo_cluster_part)` with
hi at offset 20 and lo at offset 26. -/
def startCluster (d : Dirent) : Cluster :=
  Cluster.fromRaw ((u16At d 20 <<< 16) ||| u16At d 26)

/-- `VFatRegularDirEntry.size`: u32 at offset 28. -/
def size (d : Dirent) : Nat := u32At d 28

end VFatRegularDirEntry

namespace VFatLfnDirEntry

/-- `VFatLfnDirEntry.sequence_number`: byte 0. -/
def sequenceNumber (d : Dirent) : Nat := byteAt d 0

/-- `VFatLfnDirEntry.checksum`: byte 13. -/
def checksum (d : Dirent) : Nat := byteAt d 13

/-- The 13 UTF-16 code units of an LFN slot, in field order:
`name_part_1` (u16s at offsets 1,3,5,7,9), `name_part_2` (offsets
14,16,18,20,22,24), `name_part_3` (offsets 28,30). -/
def units (d : Dirent) : List Nat :=
  [u16At d 1, u16At d 3, u16At d 5, u16At d 7, u16At d 9,
   u16At d 14, u16At d 16, u16At d 18, u16At d 20, u16At d 22, u16At d 24,
   u16At d 28, u16At d 30]

/-- Embeds `enum LfnSeq`. -/
inductive LfnSeq where
  | Deleted : LfnSeq
  | EndOfDirectory : LfnSeq
  | Seq : Nat → Bool → Bool → LfnSeq
  deriving DecidableEq

/-- Embeds `VFatLfnDirEntry::seq`: sequence number 0 is end-of-directory,
0xE5 deleted, otherwise `Seq(seq & 0b11111, (0x20 & seq) == 0, (0x40 & seq) == 0x40)`. -/
def seq (d : Dirent) : LfnSeq :=
  if sequenceNumber d = 0 then LfnSeq.EndOfDirectory
  else if sequenceNumber d = 0xE5 then LfnSeq.Deleted
  else LfnSeq.Seq (sequenceNumber d &&& 0b11111)
    ((0x20 &&& sequenceNumber d) == 0) ((0x40 &&& sequenceNumber d) == 0x40)

/-- Embeds `VFatLfnDirEntry::extend_name`: appends this slot's code units to
`name`, returning early at the first unit equal to 0x00 or 0xFF (note: the
source compares the u16 unit against 0xFF, not 0xFFFF). -/
def extendName (d : Dirent) (name : List Nat) : List Nat :=
  name ++ List.takeWhile (fun chr => chr ≠ 0x00 && chr ≠ 0xFF) (units d)

end VFatLfnDirEntry

/-- Embeds `enum LfnEnt`: the LFN reassembly state. -/
inductive LfnEnt where
  | None : LfnEnt
  | Pos : Nat → Nat → List Nat → LfnEnt
  | End : Nat → List Nat → LfnEnt
  deriving DecidableEq

/-- Embeds `LfnEnt::next(self, seq, lfn)`.  The source panics on a non-`Seq`
variant; its only caller matches on the variant first and never passes one,
so that arm is modelled as the identity. -/
def LfnEnt.next (self : LfnEnt) (sq : VFatLfnDirEntry.LfnSeq) (lfn : Dirent) : LfnEnt :=
  match sq with
  | VFatLfnDirEntry.LfnSeq.Seq pos _first last =>
    if last then
      -- the in-progress buffer (if any) is cleared and rebuilt from this slot
      let name : List Nat := []
      if pos ≠ 1 then LfnEnt.Pos pos (VFatLfnDirEntry.checksum lfn) (VFatLfnDirEntry.extendName lfn name)
      else LfnEnt.End (VFatLfnDirEntry.checksum lfn) (VFatLfnDirEntry.extendName lfn name)
    else
      match self with
      | LfnEnt.Pos currPos currChecksum name =>
        if currPos - 1 = pos ∧ currChecksum = VFatLfnDirEntry.checksum lfn then
          if pos ≠ 1 then LfnEnt.Pos pos (VFatLfnDirEntry.checksum lfn) (VFatLfnDirEntry.extendName lfn name)
          else LfnEnt.End (VFatLfnDirEntry.checksum lfn) (VFatLfnDirEntry.extendName lfn name)
        else LfnEnt.Pos currPos currChecksum name
      | s => s
  | _ => self

/-- The short-name fallback path of `VFatRegularDirEntry::name`: for
non-directory entries the rendered bytes extend with each of name, `[0x2E]`,
ext taken while the byte is neither 0 nor 0x20 (the source comment reads
"directories cant't have 8.3 extensions"); for directory entries only the
name part is rendered. -/
def VFatRegularDirEntry.shortName (d : Dirent) : List Nat :=
  if VFatRegularDirEntry.attribs d &&& 0x10 = 0 then
    List.takeWhile (fun x => x ≠ 0 && x ≠ 0x20) (VFatRegularDirEntry.nameBytes d) ++
    List.takeWhile (fun x => x ≠ 0 && x ≠ 0x20) [0x2E] ++
    List.takeWhile (fun x => x ≠ 0 && x ≠ 0x20) (VFatRegularDirEntry.extBytes d)
  else
    List.takeWhile (fun x => x ≠ 0 && x ≠ 0x20) (VFatRegularDirEntry.nameBytes d)

/-- Embeds `VFatRegularDirEntry::name(self, lfn)`, which renders the entry
name as a `String`.  We keep the name as its sequence of code units (the
long-name path runs the units through `String::from_utf16`, the short path
through `String::from_utf8`; for the code points involved in the claims both
are the identity on unit sequences). -/
def VFatRegularDirEntry.name (d : Dirent) (lfn : LfnEnt) : List Nat :=
  match lfn with
  | LfnEnt.End ck nm =>
    if ck = VFatRegularDirEntry.checksum d then nm
    else VFatRegularDirEntry.shortName d
  | _ => VFatRegularDirEntry.shortName d

/-! ## Directory enumeration (`impl Iterator for DirIter`, src/vfat/dir.rs)

`DirIter::next` loops: it drains the current cluster's 32-byte records,
dispatching each through the union discrimination, and when they are
exhausted it reads the next cluster of the chain through
`read_cluster`/`fat_entry` (panicking if `self.next` is `None`).  The
filesystem side is abstracted to the per-cluster record lists and the raw
FAT array the iterator consults; the `Vec<u8>` to `Vec<VFatUnknownDirEntry>`
cast is modelled by `clusterRecords` directly yielding the 32-byte records
of each cluster. -/

/-- The directory-facing view of `VFat`: FAT geometry bound plus the raw FAT
and the records stored in each data cluster. -/
structure DirFs where
  dataSectors : Nat
  fat : Nat → Nat
  clusterRecords : Nat → List Dirent

/-- An emitted `Entry` (src/vfat/entry.rs): `Dir` when attribute bit 4 is
set, else `File`, carrying the rendered name, start cluster and size.
Metadata timestamps are not consulted by any claim and are omitted. -/
structure EntryM where
  isDir : Bool
  name : List Nat
  startCluster : Nat
  size : Nat
  deriving DecidableEq

/-- Builds the `Entry` emitted for a valid regular record, as in the
`RegularSeq::Valid` arm of `DirIter::next`. -/
def mkEntry (d : Dirent) (lfn : LfnEnt) : EntryM :=
  { isDir := VFatRegularDirEntry.attribs d &&& 0x10 ≠ 0,
    name := VFatRegularDirEntry.name d lfn,
    startCluster := (VFatRegularDirEntry.startCluster d).id,
    size := VFatRegularDirEntry.size d }

/-- Result of running the directory stream to completion: the emitted
entries, a Rust panic, or fuel exhaustion (the model's bound on how many
clusters may be fetched; the source has no such bound and can loop on a
cyclic FAT). -/
inductive EnumResult where
  | entries : List EntryM → EnumResult
  | panicked : String → EnumResult
  | outOfFuel : EnumResult
  deriving DecidableEq

/-- The record-draining inner loop of `DirIter::next`, continued over the
whole stream: processes records in order, maintaining the LFN state, which
is reset to `LfnEnt::None` after each emitted entry (each call of `next`
starts with a fresh `lfn_ent`).  When the records run out, control returns
to `fetch` (the cluster-advance half of the loop) with the pending next
cluster and LFN state. -/
def processRecs (fetch : Option Nat → LfnEnt → EnumResult) :
    List Dirent → Option Nat → LfnEnt → EnumResult
  | [], next, lfn => fetch next lfn
  | r :: rest, next, lfn =>
    if isLfnRecord r then
      match VFatLfnDirEntry.seq r with
      | VFatLfnDirEntry.LfnSeq.EndOfDirectory => EnumResult.entries []
      | VFatLfnDirEntry.LfnSeq.Deleted => processRecs fetch rest next lfn
      | VFatLfnDirEntry.LfnSeq.Seq p f l =>
        processRecs fetch rest next (lfn.next (VFatLfnDirEntry.LfnSeq.Seq p f l) r)
    else
      match VFatRegularDirEntry.seq r with
      | VFatRegularDirEntry.RegularSeq.Deleted => processRecs fetch rest next lfn
      | VFatRegularDirEntry.RegularSeq.EndOfDirectory => EnumResult.entries []
      | VFatRegularDirEntry.RegularSeq.Valid =>
        match processRecs fetch rest next LfnEnt.None with
        | EnumResult.entries l => EnumResult.entries (mkEntry r lfn :: l)
        | other => other

/-- The cluster-advance half of `DirIter::next`: with no next cluster the
source panics ("read last cluster before end of directory"); otherwise it
reads the cluster's records and computes the following cluster from
`fat_entry(cluster).status()` (whose assert requires
`cluster.data_offset() < data_sectors`, a panic otherwise — `data_offset`
is `id - 2` in u64, so ids 0 and 1 also panic, by overflow or by the
assert).  `Data` continues the chain, `Eoc` ends it, and the remaining
statuses panic with the messages of the source. -/
def dirEnumFetch (fs : DirFs) : Nat → Option Nat → LfnEnt → EnumResult
  | _, none, _ => EnumResult.panicked "read last cluster before end of directory"
  | 0, some _, _ => EnumResult.outOfFuel
  | fuel + 1, some c, lfn =>
    if 2 ≤ c ∧ c - 2 < fs.dataSectors then
      match FatEntry.status ⟨fs.fat c⟩ with
      | Status.Data c' =>
        processRecs (dirEnumFetch fs fuel) (fs.clusterRecords c) (some c'.id) lfn
      | Status.Eoc _ =>
        processRecs (dirEnumFetch fs fuel) (fs.clusterRecords c) none lfn
      | Status.Reserved => EnumResult.panicked "directory chain has a reserved cluster"
      | Status.Free => EnumResult.panicked "directory chain has a free cluster"
      | Status.Bad => EnumResult.panicked "directory chain has bad sector(s)"
    else EnumResult.panicked "cluster out of bounds"

/-- Full enumeration of a directory from its start cluster: the iterator
starts with `curr_iter = None` and `next = Some(start_cluster)` (see
`Dir::entries`), and each `next()` call begins with `lfn_ent = LfnEnt::None`. -/
def dirEnum (fs : DirFs) (fuel : Nat) (start : Nat) : EnumResult :=
  processRecs (dirEnumFetch fs fuel) [] (some start) LfnEnt.None

/-- A well-formed cluster chain of a directory or file: each cluster is in
bounds for `fat_entry`'s assert and its FAT status is `Data` linking to the
rest, the last being `Eoc`. -/
inductive IsChain (fs : DirFs) : Nat → List Nat → Prop where
  | eoc : ∀ c r, 2 ≤ c → c - 2 < fs.dataSectors →
      FatEntry.status ⟨fs.fat c⟩ = Status.Eoc r → IsChain fs c [c]
  | data : ∀ c c' cs, 2 ≤ c → c - 2 < fs.dataSectors →
      FatEntry.status ⟨fs.fat c⟩ = Status.Data c' → IsChain fs c'.id cs →
      IsChain fs c (c :: cs)

/-! ## Concrete record builders (for the closed test theorems) -/

/-- ASCII code units of a string, for readable concrete names. -/
def strUnits (s : String) : List Nat := List.map Char.toNat s.toList

/-- Builds the 32 bytes of a regular 8.3 record from its fields (reserved,
timestamp and cluster-high bytes zero). -/
def mkRegular (name ext : List Nat) (attr : Nat) : Dirent :=
  List.take 8 (name ++ List.replicate 8 0x20) ++
  List.take 3 (ext ++ List.replicate 3 0x20) ++
  [attr, 0, 0, 0, 0, 0, 0, 0, 0, 0, 0, 0, 0, 0, 0, 0, 0, 0, 0, 0, 0]

/-- Builds the 32 bytes of an LFN slot from its sequence byte, 13 UTF-16
units and checksum byte, at the offsets of `VFatLfnDirEntry`. -/
def mkLfnSlot (seqB : Nat) (us : List Nat) (ck : Nat) : Dirent :=
  let u := fun i => List.getD us i 0
  let lo := fun x => x % 256
  let hi := fun x => x / 256 % 256
  [seqB,
   lo (u 0), hi (u 0), lo (u 1), hi (u 1), lo (u 2), hi (u 2),
   lo (u 3), hi (u 3), lo (u 4), hi (u 4),
   0x0F, 0, ck,
   lo (u 5), hi (u 5), lo (u 6), hi (u 6), lo (u 7), hi (u 7),
   lo (u 8), hi (u 8), lo (u 9), hi (u 9), lo (u 10), hi (u 10),
   0, 0,
   lo (u 11), hi (u 11), lo (u 12), hi (u 12)]

/-! ## Cached sector store (src/vfat/cache.rs)

The backing block device is modelled as an infallible total map from
physical sector number to that sector's bytes; `reads` instruments the model
with the number of `read_all_sector` calls issued to the device (each call
reads one physical sector).  Device I/O errors are not modelled: every claim
about the cache concerns the successful path. -/

/-- Embeds `struct Partition` of cache.rs. -/
structure Partition where
  start : Nat
  sectorSize : Nat

/-- Embeds `CachedDevice`: the boxed device (as its sector size and sector
contents), the `HashMap<u64, CacheEntry>` (as a map to `(data, dirty)`), and
the partition; `reads` counts physical sector reads issued so far. -/
structure CachedDevice where
  deviceSectorSize : Nat
  deviceData : Nat → List Nat
  cache : Nat → Option (List Nat × Bool)
  reads : Nat
  partition : Partition

/-- Embeds `CachedDevice::virtual_to_physical`: equal sector sizes or a
pre-partition sector map one-to-one; otherwise the logical offset scales by
`factor = partition.sector_size / device.sector_size` and `factor` physical
sectors back the logical sector. -/
def CachedDevice.virtualToPhysical (cd : CachedDevice) (virt : Nat) : Nat × Nat :=
  if cd.deviceSectorSize = cd.partition.sectorSize then (virt, 1)
  else if virt < cd.partition.start then (virt, 1)
  else
    let factor := cd.partition.sectorSize / cd.deviceSectorSize
    let logicalOffset := virt - cd.partition.start
    let physicalOffset := logicalOffset * factor
    (cd.partition.start + physicalOffset, factor)

/-- Embeds `CachedDevice::get_internal(sector, dirty)`: the translation is
applied to `sector + partition.start`; an occupied cache entry is returned
(set dirty when the flag is), a vacant one is filled by reading `count`
physical sectors from the device, inserted with the given dirty flag. -/
def CachedDevice.getInternal (cd : CachedDevice) (sector : Nat) (dirty : Bool) :
    List Nat × CachedDevice :=
  let pc := cd.virtualToPhysical (sector + cd.partition.start)
  match cd.cache sector with
  | some (data, d) =>
    (data, { cd with cache := fun s => if s = sector then some (data, d || dirty) else cd.cache s })
  | none =>
    let data := List.foldl (fun acc i => acc ++ cd.deviceData (pc.1 + i)) [] (List.range pc.2)
    (data, { cd with
      cache := fun s => if s = sector then some (data, dirty) else cd.cache s,
      reads := cd.reads + pc.2 })

/-- Embeds `CachedDevice::get`. -/
def CachedDevice.get (cd : CachedDevice) (sector : Nat) : List Nat × CachedDevice :=
  cd.getInternal sector false

/-- Embeds `CachedDevice::get_mut`. -/
def CachedDevice.getMut (cd : CachedDevice) (sector : Nat) : List Nat × CachedDevice :=
  cd.getInternal sector true

/-! ## FAT entry lookup through the cache (`VFat::fat_entry`, src/vfat/vfat.rs) -/

/-- The cache-backed view of `VFat` used by `fat_entry`. -/
structure VFatC where
  device : CachedDevice
  bytesPerSector : Nat
  fatStartSector : Nat
  dataSectors : Nat

/-- The logical sector holding the FAT entry of `cluster`:
`fat_start_sector + (cluster.id() * 4) / bytes_per_sector`. -/
def VFatC.fatEntrySector (fs : VFatC) (cluster : Cluster) : Nat :=
  fs.fatStartSector + cluster.id * 4 / fs.bytesPerSector

/-- Embeds `VFat::fat_entry`: asserts `cluster.data_offset() < data_sectors`
(`data_offset` is `id - 2` in u64, so ids below 2 panic too — overflow in a
debug build, a huge wrapped offset failing the assert in release; both are
modelled as `none`), then fetches the FAT sector through `get_mut` and reads
the 4-byte little-endian entry at `(cluster.id * 4) % bytes_per_sector`. -/
def VFatC.fatEntry (fs : VFatC) (cluster : Cluster) : Option (Nat × VFatC) :=
  if 2 ≤ cluster.id ∧ cluster.id - 2 < fs.dataSectors then
    let clusterFatOffset := cluster.id * 4
    let entryOffset := clusterFatOffset % fs.bytesPerSector
    let r := fs.device.getMut (fs.fatEntrySector cluster)
    some (u32At r.1 entryOffset, { fs with device := r.2 })
  else none

/-! ## Cluster reads and chain reads (src/vfat/vfat.rs)

`read_cluster` writes through the `io::Write` instance of `&mut [u8]`:
bytes are copied into the front of the slice, each `write` advancing it and
returning a short count once the slice is full.  `read_chain` passes its
`&mut Vec<u8>` to `read_cluster`, which coerces it to a slice over the
vector's CURRENT contents — each iteration therefore starts writing at the
vector's front again and nothing is ever appended.  The geometry and sector
contents are carried in `VFatG`; sector reads are modelled as infallible. -/

/-- Geometry plus content view of `VFat` for `read_cluster`/`read_chain`.
`sectorData` models `self.device.get(sector)` (the cached read of a logical
sector) and `fat` the raw FAT entries consulted by `fat_entry` (whose
cache-dirtying side effect is modelled separately in `VFatC`). -/
structure VFatG where
  bytesPerSector : Nat
  sectorsPerCluster : Nat
  dataStartSector : Nat
  dataSectors : Nat
  fat : Nat → Nat
  sectorData : Nat → List Nat

/-- Writing `src` through the `io::Write` impl of `&mut [u8]` into `dst` at
slice position `pos`: copies `min (src.length) (dst.length - pos)` bytes,
overwriting in place; returns the count and the updated buffer. -/
def sliceWrite (dst : List Nat) (pos : Nat) (src : List Nat) : Nat × List Nat :=
  let n := min (List.length src) (List.length dst - pos)
  (n, List.take pos dst ++ List.take n src ++ List.drop (pos + n) dst)

/-- Embeds `VFat::coords(cluster, offset)`: the logical sector range of the
cluster from `offset` on, and the in-sector start offset.  (Callers
guarantee `cluster.id ≥ 2`; `data_offset` would otherwise panic.) -/
def VFatG.coords (fs : VFatG) (cluster : Cluster) (offset : Nat) : Nat × Nat × Nat :=
  let clusterStartSector := fs.dataStartSector + (cluster.id - 2) * fs.sectorsPerCluster
  (clusterStartSector + offset / fs.bytesPerSector,
   clusterStartSector + fs.sectorsPerCluster,
   offset % fs.bytesPerSector)

/-- Embeds `VFat::read_cluster(cluster, offset, buf)`: asserts
`offset < sectors_per_cluster * bytes_per_sector` (`none` models the
panic), then writes each sector of the range into the buffer slice — the
first sector from `start_offset` on, the rest whole — returning the total
bytes written and the updated buffer. -/
def VFatG.readCluster (fs : VFatG) (cluster : Cluster) (offset : Nat) (buf : List Nat) :
    Option (Nat × List Nat) :=
  if offset < fs.sectorsPerCluster * fs.bytesPerSector then
    let c := fs.coords cluster offset
    let step := fun (acc : Nat × Nat × List Nat) (sector : Nat) =>
      let data := fs.sectorData sector
      let src := if sector = c.1 then List.drop c.2.2 data else data
      let w := sliceWrite acc.2.2 acc.2.1 src
      (acc.1 + w.1, acc.2.1 + w.1, w.2)
    let r := List.foldl step (0, 0, buf) (List.range' c.1 (c.2.1 - c.1))
    some (r.1, r.2.2)
  else none

/-- Outcome of `read_chain`: success with the returned byte count and the
final vector contents, a surfaced I/O error, a panic, or fuel exhaustion
(the source's `loop` has no bound and diverges on a cyclic FAT). -/
inductive ChainResult where
  | ok : Nat → List Nat → ChainResult
  | ioError : String → ChainResult
  | panicked : String → ChainResult
  | outOfFuel : ChainResult
  deriving DecidableEq

/-- The three-way `next` computed at the top of each `read_chain` iteration
from `fat_entry(curr).status()`: continue with a cluster, stop, an I/O
error to return after the cluster is read, or an immediate panic. -/
inductive NextStep where
  | next : Option Cluster → NextStep
  | ioErr : String → NextStep
  | panicked : String → NextStep

/-- Embeds `VFat::read_chain(start, buf)`: each iteration looks up the FAT
entry of the current cluster first (panicking on `Reserved`/`Free`, with
the fat_entry assert modelled as a panic as well), then reads the cluster
through `read_cluster` into the vector-coerced slice (position 0, bounded by
the vector's current length), accumulates the count, and either continues
with the `Data` target, returns `Ok` on `Eoc`, or returns the `Bad` error. -/
def VFatG.readChain (fs : VFatG) : Nat → Cluster → Nat → List Nat → ChainResult
  | 0, _, _, _ => ChainResult.outOfFuel
  | fuel + 1, curr, bytesRead, buf =>
    if 2 ≤ curr.id ∧ curr.id - 2 < fs.dataSectors then
      let nstep := match FatEntry.status ⟨fs.fat curr.id⟩ with
        | Status.Data cluster => NextStep.next (some cluster)
        | Status.Eoc _ => NextStep.next none
        | Status.Reserved => NextStep.panicked "trying to read reserved cluster"
        | Status.Free => NextStep.panicked "trying to read free cluster"
        | Status.Bad => NextStep.ioErr "cluster contains bad sector(s)"
      match nstep with
      | NextStep.panicked m => ChainResult.panicked m
      | _ =>
        match fs.readCluster curr 0 buf with
        | none => ChainResult.panicked "read offset exceeds cluster size"
        | some (n, buf') =>
          match nstep with
          | NextStep.next (some cluster) => fs.readChain fuel cluster (bytesRead + n) buf'
          | NextStep.next none => ChainResult.ok (bytesRead + n) buf'
          | NextStep.ioErr m => ChainResult.ioError m
          | NextStep.panicked m => ChainResult.panicked m
    else ChainResult.panicked "cluster out of bounds"

/-! ## Path resolution (`impl FileSystem for &Shared<VFat>`, src/vfat/vfat.rs)

`open` walks `path.components()`.  We embed the component list directly
(Rust's `Component`: the claims quantify over paths through their
components; `Prefix` is Windows-only and folded into the non-normal cases).
Directories are abstracted to their entry lists — `Dir::find` enumerates
`entries()` and compares names with `eq_ignore_ascii_case` — and names are
already-valid UTF-8 strings, so `find`'s `InvalidInput` arm for non-UTF-8
names cannot fire. -/

/-- A path component, as produced by `Path::components()`. -/
inductive Component where
  | rootDir : Component
  | curDir : Component
  | parentDir : Component
  | normal : String → Component
  deriving DecidableEq

/-- A pure snapshot of the directory tree reachable from a directory: each
entry is a name with either a file (carrying its size) or a subdirectory. -/
inductive FsTree where
  | file : Nat → FsTree
  | dir : List (String × FsTree) → FsTree

/-- What `open` returns: the terminal `Entry::Dir` (as its entry list) or
`Entry::File` (as its size). -/
inductive OpenResult where
  | dirE : List (String × FsTree) → OpenResult
  | fileE : Nat → OpenResult

/-- The error kinds `open` produces. -/
inductive OpenErr where
  | invalidInput : OpenErr
  | notFound : OpenErr
  deriving DecidableEq

/-- ASCII lower-casing of one character, as `u8::to_ascii_lowercase`. -/
def asciiLower (c : Char) : Char :=
  if 'A' ≤ c ∧ c ≤ 'Z' then Char.ofNat (c.toNat + 32) else c

/-- Embeds `str::eq_ignore_ascii_case`. -/
def eqIgnoreAsciiCase (a b : String) : Bool :=
  List.map asciiLower a.toList == List.map asciiLower b.toList

/-- Embeds `Dir::find`: the first entry of `entries()` whose name compares
case-insensitively equal (the `Iterator::find` inside). -/
def findEntry (entries : List (String × FsTree)) (name : String) :
    Option (String × FsTree) :=
  List.find? (fun e => eqIgnoreAsciiCase e.1 name) entries

/-- The component loop of `open`: `Normal` components are looked up in the
current directory — an absent component is `NotFound` when last
(`iter.peek().is_none()`) and `InvalidInput` ("directory does not exist")
otherwise; a `File` is returned when last and `InvalidInput`
("not a directory") otherwise; a `Dir` becomes the new cwd.  Any other
component kind is `InvalidInput`.  An exhausted iterator returns
`Ok(Entry::Dir(cwd))`. -/
def resolveLoop (cwd : List (String × FsTree)) :
    List Component → Except OpenErr OpenResult
  | [] => Except.ok (OpenResult.dirE cwd)
  | Component.normal name :: rest =>
    match findEntry cwd name with
    | none =>
      if rest.isEmpty then Except.error OpenErr.notFound
      else Except.error OpenErr.invalidInput
    | some (_, FsTree.file sz) =>
      if rest.isEmpty then Except.ok (OpenResult.fileE sz)
      else Except.error OpenErr.invalidInput
    | some (_, FsTree.dir children) => resolveLoop children rest
  | _ :: _ => Except.error OpenErr.invalidInput

/-- Embeds `open(path)`: the first component must be `RootDir`
(`InvalidInput` "not an absolute path" otherwise — the empty path included),
then the loop resolves the rest against the root directory's entries. -/
def openPath (root : List (String × FsTree)) :
    List Component → Except OpenErr OpenResult
  | Component.rootDir :: rest => resolveLoop root rest
  | _ => Except.error OpenErr.invalidInput

/-! ## Unsupported operations (src/vfat/file.rs, src/vfat/vfat.rs)

`File`'s `io::Write::write`, `io::Write::flush`, `io::Seek::seek` and
`traits::File::sync`, and the filesystem's `create_file`, `create_dir`,
`rename` and `remove`, are all bodies of `unimplemented!(..)`, which panics
with "not implemented" (plus the given message).  They are embedded over
opaque-input placeholders: the result never depends on the input. -/

/-- A Rust call outcome: a value, an `io::Error` kind, or a panic. -/
inductive RustOutcome (α : Type) where
  | ok : α → RustOutcome α
  | err : OpenErr → RustOutcome α
  | panicked : String → RustOutcome α
  deriving DecidableEq

/-- Whether an outcome is an error return (as opposed to success or panic). -/
def RustOutcome.isErr {α : Type} : RustOutcome α → Bool
  | RustOutcome.err _ => true
  | _ => false

/-- Embeds `impl io::Write for File`: `write` is `unimplemented!()`. -/
def File.write (_file : EntryM) (_buf : List Nat) : RustOutcome Nat :=
  RustOutcome.panicked "not implemented"

/-- Embeds `impl io::Write for File`: `flush` is `unimplemented!()`. -/
def File.flush (_file : EntryM) : RustOutcome Unit :=
  RustOutcome.panicked "not implemented"

/-- `SeekFrom` positions for `io::Seek`. -/
inductive SeekFromM where
  | start : Nat → SeekFromM
  | endPos : Int → SeekFromM
  | current : Int → SeekFromM
  deriving DecidableEq

/-- Embeds `impl io::Seek for File`: `seek` is `unimplemented!("File::seek()")`. -/
def File.seek (_file : EntryM) (_pos : SeekFromM) : RustOutcome Nat :=
  RustOutcome.panicked "not implemented: File::seek()"

/-- Embeds `traits::File::sync for File`: `unimplemented!("File::sync")`. -/
def File.sync (_file : EntryM) : RustOutcome Unit :=
  RustOutcome.panicked "not implemented: File::sync"

/-- Embeds `FileSystem::create_file`: `unimplemented!("read only file system")`. -/
def VFat.createFile (_path : List Component) : RustOutcome EntryM :=
  RustOutcome.panicked "not implemented: read only file system"

/-- Embeds `FileSystem::create_dir`: `unimplemented!("read only file system")`. -/
def VFat.createDir (_path : List Component) (_parents : Bool) : RustOutcome EntryM :=
  RustOutcome.panicked "not implemented: read only file system"

/-- Embeds `FileSystem::rename`: `unimplemented!("read only file system")`. -/
def VFat.rename (_from _to : List Component) : RustOutcome Unit :=
  RustOutcome.panicked "not implemented: read only file system"

/-- Embeds `FileSystem::remove`: `unimplemented!("read only file system")`. -/
def VFat.remove (_path : List Component) (_children : Bool) : RustOutcome Unit :=
  RustOutcome.panicked "not implemented: read only file system"

/-! ## Concrete fixtures used by the closed test theorems -/

/-- An all-zero record: the end-of-directory marker. -/
def endMarker : Dirent := List.replicate 32 0

/-- A regular 8.3 entry "ABCDEFGH.TXT" with the archive attribute. -/
def reg0 : Dirent := mkRegular (strUnits "ABCDEFGH") (strUnits "TXT") 0x20

/-- The short-name checksum of `reg0` (evaluates to 246). -/
def csum0 : Nat := VFatRegularDirEntry.checksum reg0

/-- The 13 code units of LFN fragment index 1: "ABCDEFGHIJKLM". -/
def frag1 : List Nat := strUnits "ABCDEFGHIJKLM"

/-- The 13 code units of LFN fragment index 2: "N", then the 0x0000
terminator and 0xFFFF padding. -/
def frag2 : List Nat := strUnits "N" ++ [0] ++ List.replicate 11 0xFFFF

/-- On-disk first LFN slot of the group: index 2 with bit 0x40 set. -/
def slotHi : Dirent := mkLfnSlot 0x42 frag2 csum0

/-- On-disk second LFN slot of the group: index 1. -/
def slotLo : Dirent := mkLfnSlot 0x01 frag1 csum0

/-- A deleted regular record (first byte 0xE5). -/
def delRec : Dirent := mkRegular (0xE5 :: strUnits "ELETED") (strUnits "TXT") 0x20

/-- Directory for C2: a complete two-slot LFN group, its regular entry, the
end marker; single cluster 2 whose FAT entry is end-of-chain. -/
def fs2 : DirFs :=
  { dataSectors := 16,
    fat := fun c => if c = 2 then 0x0FFFFFF8 else 0,
    clusterRecords := fun c => if c = 2 then [slotHi, slotLo, reg0, endMarker] else [] }

/-- Directory for C4's counterexample: a one-slot LFN group, then a deleted
record, then the matching regular entry, then the end marker. -/
def fs4 : DirFs :=
  { dataSectors := 16,
    fat := fun c => if c = 2 then 0x0FFFFFF8 else 0,
    clusterRecords := fun c => if c = 2 then [mkLfnSlot 0x41 frag1 csum0, delRec, reg0, endMarker] else [] }

/-- Directory holding only a deleted entry and then the end marker. -/
def fsE : DirFs :=
  { dataSectors := 16,
    fat := fun c => if c = 2 then 0x0FFFFFF8 else 0,
    clusterRecords := fun c => if c = 2 then [delRec, endMarker] else [] }

/-- Directory whose single end-of-chain cluster holds only a deleted record
and no 0x00 terminator. -/
def fsX : DirFs :=
  { dataSectors := 16,
    fat := fun c => if c = 2 then 0x0FFFFFF8 else 0,
    clusterRecords := fun c => if c = 2 then [delRec] else [] }

/-- A non-directory entry "FOO" with an all-blank extension field. -/
def reg5 : Dirent := mkRegular (strUnits "FOO") [] 0x20

/-- Geometry for C3: 4-byte sectors, one sector per cluster, a one-cluster
chain at cluster 2 (FAT marks it end-of-chain), every sector reading
[1, 2, 3, 4]. -/
def fs3 : VFatG :=
  { bytesPerSector := 4, sectorsPerCluster := 1, dataStartSector := 10,
    dataSectors := 8,
    fat := fun c => if c = 2 then 0x0FFFFFF8 else 0,
    sectorData := fun _ => [1, 2, 3, 4] }

/-- A cached device whose logical sectors are twice the physical sector
size (factor 2), with an empty cache. -/
def cd0 : CachedDevice :=
  { deviceSectorSize := 1,
    deviceData := fun s => [s % 256],
    cache := fun _ => none,
    reads := 0,
    partition := { start := 0, sectorSize := 2 } }

/-- A cached device with matching sector sizes and an empty cache, backing
the C9 witness. -/
def cd9 : CachedDevice :=
  { deviceSectorSize := 4,
    deviceData := fun s => [s % 256, 0, 0, 0],
    cache := fun _ => none,
    reads := 0,
    partition := { start := 1, sectorSize := 4 } }

/-- The cache-backed `VFat` view for the C9 witness. -/
def fsC0 : VFatC :=
  { device := cd9, bytesPerSector := 4, fatStartSector := 1, dataSectors := 8 }

/-- Whether a path component is `Normal`. -/
def isNormalComp : Component → Bool
  | Component.normal _ => true
  | _ => false

/-- A concrete entry value for the C8 counterexample. -/
def e0 : EntryM := { isDir := false, name := strUnits "X", startCluster := 3, size := 7 }

end Fat32

/-- Claim C1: the claim states that raw value 0x0FFFFFF7 classifies as `Bad`.
The code classifies it as `Reserved`: the match arm
`1 | 0xFFFFFF0..=0xFFFFFF7 => Reserved` covers 0x0FFFFFF7 and no arm ever
produces `Status::Bad`, although the variant is documented as the
bad-cluster case and every caller matches on it.  This theorem evaluates the
code at the failing input (also in its unmasked form 0xFFFFFFF7). -/
theorem c1_bad_cluster_value_classified_reserved :
    Fat32.FatEntry.status ⟨0x0FFFFFF7⟩ = Fat32.Status.Reserved ∧
    Fat32.FatEntry.status ⟨0xFFFFFFF7⟩ = Fat32.Status.Reserved ∧
    Fat32.FatEntry.status ⟨0x0FFFFFF7⟩ ≠ Fat32.Status.Bad := by
  refine ⟨by decide, by decide, by decide⟩

/-- Claim C2: the claim states the long name is assembled with slot `index`'s
units at offset (index − 1) × 13, fragment 1 first, truncated at 0x0000 or
0xFFFF.  The code instead appends each slot's units in on-disk order
(highest index first, since `LfnEnt::next` clears the buffer at the 0x40
slot and `extend_name` appends), and truncates at 0x00FF rather than
0xFFFF.  For a two-slot group carrying "ABCDEFGHIJKLM" (index 1) and "N"
(index 2), the code yields "NABCDEFGHIJKLM" where the claim requires
"ABCDEFGHIJKLMN".  All slot checksums here match the entry's computed
checksum, so the fallback clause is not involved. -/
theorem c2_lfn_fragments_assembled_in_reverse :
    Fat32.dirEnum Fat32.fs2 2 2 =
      Fat32.EnumResult.entries
        [{ isDir := false, name := Fat32.strUnits "NABCDEFGHIJKLM",
           startCluster := 0, size := 0 }] ∧
    Fat32.strUnits "NABCDEFGHIJKLM" ≠ Fat32.strUnits "ABCDEFGHIJKLMN" := by
  exact ⟨by decide, by decide⟩

/-- Claim C4 counterexample: the claim asserts that a deleted (0xE5) record
discards pending LFN reassembly state, so that a deleted record between an
LFN group and its regular entry prevents the long name from being used.  In
`fs4` a deleted record sits between a complete one-slot LFN group and the
matching regular entry, yet the emitted entry carries the long name
"ABCDEFGHIJKLM", not the short name "ABCDEFGH.TXT": the `RegularSeq::Deleted`
and `LfnSeq::Deleted` arms of `DirIter::next` are a bare `continue` that
leaves `lfn_ent` untouched. -/
theorem c4_counterexample_deleted_keeps_lfn_state :
    Fat32.dirEnum Fat32.fs4 2 2 =
      Fat32.EnumResult.entries
        [{ isDir := false, name := Fat32.strUnits "ABCDEFGHIJKLM",
           startCluster := 0, size := 0 }] ∧
    Fat32.strUnits "ABCDEFGHIJKLM" ≠ Fat32.VFatRegularDirEntry.shortName Fat32.reg0 := by
  exact ⟨by decide, by decide⟩

/-- Claim C4 (amended): the entry stream terminates at the first regular
record whose first byte is 0x00 and skips every record whose first byte is
0xE5 — but WITHOUT discarding pending LFN reassembly state (the skip leaves
the state untouched, so a deleted record between an LFN group and a regular
entry does not prevent the long name from being used); a directory holding
only a deleted entry followed by an end marker still enumerates as the empty
sequence without error. -/
theorem c4_deleted_skipped_state_kept_end_terminates :
    (∀ (fetch : Option Nat → Fat32.LfnEnt → Fat32.EnumResult) (rest : List Fat32.Dirent)
       (next : Option Nat) (lfn : Fat32.LfnEnt) (r : Fat32.Dirent),
       Fat32.byteAt r 0 = 0xE5 →
       Fat32.processRecs fetch (r :: rest) next lfn = Fat32.processRecs fetch rest next lfn)
    ∧ (∀ (fetch : Option Nat → Fat32.LfnEnt → Fat32.EnumResult) (rest : List Fat32.Dirent)
       (next : Option Nat) (lfn : Fat32.LfnEnt) (r : Fat32.Dirent),
       Fat32.isLfnRecord r = false → Fat32.byteAt r 0 = 0 →
       Fat32.processRecs fetch (r :: rest) next lfn = Fat32.EnumResult.entries [])
    ∧ Fat32.dirEnum Fat32.fsE 2 2 = Fat32.EnumResult.entries [] := by
  refine ⟨?_, ?_, by decide⟩
  · intro fetch rest next lfn r h
    by_cases hl : Fat32.isLfnRecord r
    · simp [Fat32.processRecs, hl, Fat32.VFatLfnDirEntry.seq,
        Fat32.VFatLfnDirEntry.sequenceNumber, h]
    · simp [Fat32.processRecs, hl, Fat32.VFatRegularDirEntry.seq, h]
  · intro fetch rest next lfn r hl h
    simp [Fat32.processRecs, hl, Fat32.VFatRegularDirEntry.seq, h]

/-- Witness for C4: the skip and terminate clauses applied at concrete
inputs — a deleted record before the end marker is skipped with the LFN
state kept, and the end marker terminates the stream. -/
theorem c4_witness :
    Fat32.processRecs (fun _ _ => Fat32.EnumResult.outOfFuel)
        (Fat32.delRec :: [Fat32.endMarker]) none Fat32.LfnEnt.None =
      Fat32.processRecs (fun _ _ => Fat32.EnumResult.outOfFuel)
        [Fat32.endMarker] none Fat32.LfnEnt.None ∧
    Fat32.processRecs (fun _ _ => Fat32.EnumResult.outOfFuel)
        (Fat32.endMarker :: []) none Fat32.LfnEnt.None =
      Fat32.EnumResult.entries [] :=
  ⟨c4_deleted_skipped_state_kept_end_terminates.1
      (fun _ _ => Fat32.EnumResult.outOfFuel) [Fat32.endMarker] none Fat32.LfnEnt.None
      Fat32.delRec (by decide),
   c4_deleted_skipped_state_kept_end_terminates.2.1
      (fun _ _ => Fat32.EnumResult.outOfFuel) [] none Fat32.LfnEnt.None
      Fat32.endMarker (by decide) (by decide)⟩

/-- Claim C5 counterexample: the claim asserts the '.' separator and the
extension are appended if and only if `ext[0] != 0x20`.  For the
non-directory entry `reg5`, whose ext field is all 0x20, the code still
renders the trailing '.': the name path for files extends with the parts
name, `[0x2E]`, ext unconditionally, and only the ext part collapses under
truncation — yielding "FOO." where the claim requires "FOO". -/
theorem c5_counterexample_trailing_dot :
    Fat32.VFatRegularDirEntry.name Fat32.reg5 Fat32.LfnEnt.None = Fat32.strUnits "FOO." ∧
    Fat32.strUnits "FOO." ≠ Fat32.strUnits "FOO" := by
  exact ⟨by decide, by decide⟩

/-- Claim C5 (amended): the rendered short name is the 8-byte name field
truncated at the first 0x00 or 0x20 byte; for non-directory entries it is
ALWAYS followed by '.' and then the similarly truncated 3-byte ext field
(the '.' is appended even when `ext[0] == 0x20`); for entries with the
directory attribute bit set, no '.' or extension is ever appended. -/
theorem c5_short_name_rendering (d : Fat32.Dirent) :
    (Fat32.VFatRegularDirEntry.attribs d &&& 0x10 = 0 →
      Fat32.VFatRegularDirEntry.shortName d =
        List.takeWhile (fun x => x ≠ 0 && x ≠ 0x20) (Fat32.VFatRegularDirEntry.nameBytes d) ++
        0x2E :: List.takeWhile (fun x => x ≠ 0 && x ≠ 0x20) (Fat32.VFatRegularDirEntry.extBytes d))
    ∧ (Fat32.VFatRegularDirEntry.attribs d &&& 0x10 ≠ 0 →
      Fat32.VFatRegularDirEntry.shortName d =
        List.takeWhile (fun x => x ≠ 0 && x ≠ 0x20) (Fat32.VFatRegularDirEntry.nameBytes d))
    ∧ Fat32.VFatRegularDirEntry.name d Fat32.LfnEnt.None =
        Fat32.VFatRegularDirEntry.shortName d := by
  refine ⟨fun h => ?_, fun h => ?_, rfl⟩
  · simp [Fat32.VFatRegularDirEntry.shortName, h, List.takeWhile]
  · simp [Fat32.VFatRegularDirEntry.shortName, h]

/-- Witness for C5: the rendering clauses applied at `reg5` (a file with a
blank extension, attribute byte 0x20) — both hypotheses discharged there. -/
theorem c5_witness :
    Fat32.VFatRegularDirEntry.shortName Fat32.reg5 =
      List.takeWhile (fun x => x ≠ 0 && x ≠ 0x20)
        (Fat32.VFatRegularDirEntry.nameBytes Fat32.reg5) ++
      0x2E :: List.takeWhile (fun x => x ≠ 0 && x ≠ 0x20)
        (Fat32.VFatRegularDirEntry.extBytes Fat32.reg5) :=
  (c5_short_name_rendering Fat32.reg5).1 (by decide)

namespace Fat32

/-- Helper: when every record carries a nonzero first byte, the
record-draining loop never terminates the stream itself, so a fetch
continuation that panics makes the whole stream panic (entries merely pass
the panic outward). -/
theorem processRecs_panicked (fetch : Option Nat → LfnEnt → EnumResult) (msg : String) :
    ∀ (recs : List Dirent) (next : Option Nat) (lfn : LfnEnt),
      (∀ r ∈ recs, byteAt r 0 ≠ 0) →
      (∀ l', fetch next l' = EnumResult.panicked msg) →
      processRecs fetch recs next lfn = EnumResult.panicked msg := by
  intro recs
  induction recs with
  | nil =>
    intro next lfn _ hf
    simpa [processRecs] using hf lfn
  | cons r rest ih =>
    intro next lfn h hf
    have h0 : byteAt r 0 ≠ 0 := h r (List.mem_cons_self r rest)
    have hrest : ∀ x ∈ rest, byteAt x 0 ≠ 0 := fun x hx => h x (List.mem_cons_of_mem r hx)
    by_cases hl : isLfnRecord r
    · by_cases h5 : byteAt r 0 = 0xE5
      · have hseq : VFatLfnDirEntry.seq r = VFatLfnDirEntry.LfnSeq.Deleted := by
          simp [VFatLfnDirEntry.seq, VFatLfnDirEntry.sequenceNumber, h0, h5]
        simp only [processRecs, hl, if_true, hseq]
        exact ih next lfn hrest hf
      · have hseq : VFatLfnDirEntry.seq r = VFatLfnDirEntry.LfnSeq.Seq (byteAt r 0 &&& 31)
            ((0x20 &&& byteAt r 0) == 0) ((0x40 &&& byteAt r 0) == 0x40) := by
          simp [VFatLfnDirEntry.seq, VFatLfnDirEntry.sequenceNumber, h0, h5]
        simp only [processRecs, hl, if_true, hseq]
        exact ih next _ hrest hf
    · by_cases h5 : byteAt r 0 = 0xE5
      · have hseq : VFatRegularDirEntry.seq r = VFatRegularDirEntry.RegularSeq.Deleted := by
          simp [VFatRegularDirEntry.seq, h5]
        simp only [processRecs, hl, Bool.false_eq_true, if_false, hseq]
        exact ih next lfn hrest hf
      · have hseq : VFatRegularDirEntry.seq r = VFatRegularDirEntry.RegularSeq.Valid := by
          simp [VFatRegularDirEntry.seq, h0, h5]
        simp only [processRecs, hl, Bool.false_eq_true, if_false, hseq]
        rw [ih next LfnEnt.None hrest hf]

/-- Helper: with no next cluster pending, the fetch half of the iterator
panics regardless of remaining fuel. -/
theorem dirEnumFetch_none (fs : DirFs) (fuel : Nat) (lfn : LfnEnt) :
    dirEnumFetch fs fuel none lfn =
      EnumResult.panicked "read last cluster before end of directory" := by
  cases fuel <;> rfl

/-- Helper: along a well-formed chain none of whose records is a 0x00
terminator, the fetch half always ends in the end-of-directory panic, for
any fuel covering the chain length. -/
theorem dirEnumFetch_panicked (fs : DirFs) :
    ∀ (c : Nat) (cs : List Nat), IsChain fs c cs →
      (∀ cc ∈ cs, ∀ r ∈ fs.clusterRecords cc, byteAt r 0 ≠ 0) →
      ∀ fuel, cs.length ≤ fuel → ∀ lfn,
        dirEnumFetch fs fuel (some c) lfn =
          EnumResult.panicked "read last cluster before end of directory" := by
  intro c cs hch
  induction hch with
  | eoc c r hb1 hb2 hst =>
    intro hno fuel hf lfn
    obtain ⟨k, rfl⟩ : ∃ k, fuel = k + 1 := ⟨fuel - 1, by simp at hf; omega⟩
    show dirEnumFetch fs (k + 1) (some c) lfn = _
    simp only [dirEnumFetch]
    rw [if_pos ⟨hb1, hb2⟩, hst]
    exact processRecs_panicked _ _ _ _ _
      (hno c (List.mem_singleton.mpr rfl)) (fun l' => dirEnumFetch_none fs k l')
  | data c c' cs hb1 hb2 hst hch ih =>
    intro hno fuel hf lfn
    obtain ⟨k, rfl⟩ : ∃ k, fuel = k + 1 := ⟨fuel - 1, by simp at hf; omega⟩
    have hk : cs.length ≤ k := by simp at hf; omega
    show dirEnumFetch fs (k + 1) (some c) lfn = _
    simp only [dirEnumFetch]
    rw [if_pos ⟨hb1, hb2⟩, hst]
    exact processRecs_panicked _ _ _ _ _
      (hno c (List.mem_cons_self c cs))
      (fun l' => ih (fun cc hcc => hno cc (List.mem_cons_of_mem c hcc)) k hk l')

end Fat32

/-- Claim C10: for every directory whose cluster chain reaches end-of-chain
without any record whose first byte is 0x00, the iteration panics with
"read last cluster before end of directory" instead of ending; enumeration
can complete without panicking only when a 0x00 terminator record occurs
within the chain (records with nonzero first bytes — deleted, LFN, or valid
— never terminate the stream). -/
theorem c10_no_terminator_panics (fs : Fat32.DirFs) (start : Nat) (cs : List Nat)
    (fuel : Nat) (hch : Fat32.IsChain fs start cs)
    (hno : ∀ cc ∈ cs, ∀ r ∈ fs.clusterRecords cc, Fat32.byteAt r 0 ≠ 0)
    (hf : cs.length ≤ fuel) :
    Fat32.dirEnum fs fuel start =
      Fat32.EnumResult.panicked "read last cluster before end of directory" := by
  show Fat32.processRecs (Fat32.dirEnumFetch fs fuel) [] (some start) Fat32.LfnEnt.None = _
  simp only [Fat32.processRecs]
  exact Fat32.dirEnumFetch_panicked fs start cs hch hno fuel hf Fat32.LfnEnt.None

/-- Witness for C10: the single-cluster directory `fsX`, holding only a
deleted record and no terminator, panics. -/
theorem c10_witness :
    Fat32.dirEnum Fat32.fsX 1 2 =
      Fat32.EnumResult.panicked "read last cluster before end of directory" :=
  c10_no_terminator_panics Fat32.fsX 2 [2] 1
    (Fat32.IsChain.eoc 2 0x0FFFFFF8 (by decide) (by decide) (by decide))
    (by
      intro cc hcc r hr
      rw [List.mem_singleton] at hcc
      subst hcc
      simp only [Fat32.fsX, if_true] at hr
      rw [List.mem_singleton] at hr
      subst hr
      decide)
    (by decide)

/-- Claim C3: the claim states `read_chain(start, &mut buf)` appends to
`buf` all bytes of every cluster of the chain, growing `buf.len()` by the
chain length times the cluster size.  In the code, `read_chain` passes its
`&mut Vec<u8>` to `read_cluster`, whose `&mut [u8]` parameter receives the
deref-coerced slice over the vector's CURRENT contents; the `io::Write`
instance of `&mut [u8]` then writes at most the slice's length.  Starting
from an empty vector every write returns a short count of 0: for the
one-cluster chain of `fs3` (cluster size 4), `read_chain` terminates with
`Ok(0)` and the vector still empty, where the claim requires 4 appended
bytes. -/
theorem c3_read_chain_appends_nothing :
    Fat32.VFatG.readChain Fat32.fs3 5 ⟨2⟩ 0 [] = Fat32.ChainResult.ok 0 [] ∧
    List.length ([] : List Nat) ≠
      Fat32.fs3.sectorsPerCluster * Fat32.fs3.bytesPerSector := by
  exact ⟨by decide, by decide⟩

/-- Claim C7 counterexample: the claim states two successive `get(s)` calls
issue exactly one device read in total, for every logical sector.  On
`cd0`, whose logical sector size is twice the physical (factor 2), the
first `get(0)` misses and issues one `read_all_sector` per backing physical
sector — two reads — and the second is served from the cache: the total is
2, not 1. -/
theorem c7_counterexample_two_physical_reads :
    ((Fat32.cd0.get 0).2.get 0).2.reads = 2 ∧
    ¬ ((Fat32.cd0.get 0).2.get 0).2.reads = 1 := by
  exact ⟨by decide, by decide⟩

/-- Claim C7 (amended): for an uncached logical sector `s`, the first
`get(s)` issues exactly `count` device reads, where `count` is the physical
sector count of the address translation (equal to one exactly when the
device and partition sector sizes agree); the second `get(s)` is served
from the cache and issues zero additional reads, and a `get_mut(s)`
following a `get(s)` also issues zero additional reads while marking the
cached entry dirty. -/
theorem c7_cache_idempotence (cd : Fat32.CachedDevice) (s : Nat)
    (h : cd.cache s = none) :
    ((cd.get s).2.reads = cd.reads + (cd.virtualToPhysical (s + cd.partition.start)).2)
    ∧ (cd.deviceSectorSize = cd.partition.sectorSize →
        (cd.virtualToPhysical (s + cd.partition.start)).2 = 1)
    ∧ (((cd.get s).2.get s).2.reads = (cd.get s).2.reads)
    ∧ (((cd.get s).2.getMut s).2.reads = (cd.get s).2.reads)
    ∧ (Option.map Prod.snd (((cd.get s).2.getMut s).2.cache s) = some true) := by
  refine ⟨?_, ?_, ?_, ?_, ?_⟩
  · simp [Fat32.CachedDevice.get, Fat32.CachedDevice.getInternal, h]
  · intro he
    simp [Fat32.CachedDevice.virtualToPhysical, he]
  · simp [Fat32.CachedDevice.get, Fat32.CachedDevice.getInternal, h]
  · simp [Fat32.CachedDevice.get, Fat32.CachedDevice.getMut,
      Fat32.CachedDevice.getInternal, h]
  · simp [Fat32.CachedDevice.get, Fat32.CachedDevice.getMut,
      Fat32.CachedDevice.getInternal, h]

/-- Witness for C7: the cache-idempotence clauses applied to `cd0` at
sector 0 (its cache is empty, so the hypothesis holds by rfl). -/
theorem c7_witness :
    (((Fat32.cd0.get 0).2.get 0).2.reads = (Fat32.cd0.get 0).2.reads) ∧
    (Option.map Prod.snd (((Fat32.cd0.get 0).2.getMut 0).2.cache 0) = some true) :=
  ⟨(c7_cache_idempotence Fat32.cd0 0 rfl).2.2.1,
   (c7_cache_idempotence Fat32.cd0 0 rfl).2.2.2.2⟩

/-- Claim C9: every successful `fat_entry(cluster)` call fetches the FAT
sector holding the entry through `get_mut`, so the cache entry of that
sector ends up dirty — whether the sector was already cached (the dirty
flag is forced to true) or was just read in (inserted dirty). -/
theorem c9_fat_entry_marks_dirty (fs : Fat32.VFatC) (c : Fat32.Cluster) (v : Nat)
    (fs' : Fat32.VFatC) (h : fs.fatEntry c = some (v, fs')) :
    Option.map Prod.snd (fs'.device.cache (fs.fatEntrySector c)) = some true := by
  simp only [Fat32.VFatC.fatEntry] at h
  split at h
  · simp only [Option.some.injEq, Prod.mk.injEq] at h
    obtain ⟨-, hfs⟩ := h
    subst hfs
    cases hc : fs.device.cache (fs.fatEntrySector c) with
    | none =>
      simp [Fat32.CachedDevice.getMut, Fat32.CachedDevice.getInternal, hc]
    | some entry =>
      simp [Fat32.CachedDevice.getMut, Fat32.CachedDevice.getInternal, hc]
  · exact absurd h (by simp)

/-- Witness for C9: a `fat_entry` lookup of cluster 2 on the concrete
`fsC0` succeeds (by rfl) and leaves its FAT sector cached dirty. -/
theorem c9_witness :
    Option.map Prod.snd
      (({ Fat32.fsC0 with
          device := (Fat32.fsC0.device.getMut (Fat32.fsC0.fatEntrySector ⟨2⟩)).2 } :
            Fat32.VFatC).device.cache (Fat32.fsC0.fatEntrySector ⟨2⟩)) = some true :=
  c9_fat_entry_marks_dirty Fat32.fsC0 ⟨2⟩
    (Fat32.u32At (Fat32.fsC0.device.getMut (Fat32.fsC0.fatEntrySector ⟨2⟩)).1
      (2 * 4 % Fat32.fsC0.bytesPerSector))
    ({ Fat32.fsC0 with
       device := (Fat32.fsC0.device.getMut (Fat32.fsC0.fatEntrySector ⟨2⟩)).2 })
    rfl

namespace Fat32

/-- Helper: a component list containing a non-normal component always
resolves to `InvalidInput` — every step taken before reaching it (an absent
component, which cannot be last here, or a file hit before the last
component) already fails with `InvalidInput`, and reaching it fails too. -/
theorem resolveLoop_nonNormal :
    ∀ (comps : List Component), (∃ c ∈ comps, isNormalComp c = false) →
      ∀ cwd, resolveLoop cwd comps = Except.error OpenErr.invalidInput := by
  intro comps
  induction comps with
  | nil =>
    rintro ⟨c, hc, -⟩
    simp at hc
  | cons c rest ih =>
    rintro ⟨c', hc', hn'⟩ cwd
    cases c with
    | rootDir => rfl
    | curDir => rfl
    | parentDir => rfl
    | normal name =>
      have hmem : c' ∈ rest := by
        rcases List.mem_cons.mp hc' with rfl | hm
        · simp [isNormalComp] at hn'
        · exact hm
      rcases rest with - | ⟨r2, rest2⟩
      · simp at hmem
      · show resolveLoop cwd (Component.normal name :: r2 :: rest2) = _
        cases hfind : findEntry cwd name with
        | none => simp [resolveLoop, hfind]
        | some e =>
          rcases e with ⟨nm, tree⟩
          cases tree with
          | file sz => simp [resolveLoop, hfind]
          | dir children =>
            simp only [resolveLoop, hfind]
            exact ih ⟨c', hmem, hn'⟩ children

end Fat32

/-- Claim C6: `open` fails with `InvalidInput` when the path is not
absolute (the empty path included) or contains a non-normal component;
during resolution an absent component yields `NotFound` when last and
`InvalidInput` otherwise; a file reached before the last component yields
`InvalidInput`; otherwise resolution descends through directories and
returns the terminal directory (the root for "/") or the terminal file. -/
theorem c6_open_path_resolution :
    (∀ (root : List (String × Fat32.FsTree)) (comps : List Fat32.Component),
       List.head? comps ≠ some Fat32.Component.rootDir →
       Fat32.openPath root comps = Except.error Fat32.OpenErr.invalidInput)
    ∧ (∀ (root : List (String × Fat32.FsTree)) (rest : List Fat32.Component),
       (∃ c ∈ rest, Fat32.isNormalComp c = false) →
       Fat32.openPath root (Fat32.Component.rootDir :: rest) =
         Except.error Fat32.OpenErr.invalidInput)
    ∧ (∀ (cwd : List (String × Fat32.FsTree)) (name : String)
       (rest : List Fat32.Component), Fat32.findEntry cwd name = none →
       Fat32.resolveLoop cwd (Fat32.Component.normal name :: rest) =
         Except.error
           (if rest.isEmpty then Fat32.OpenErr.notFound else Fat32.OpenErr.invalidInput))
    ∧ (∀ (cwd : List (String × Fat32.FsTree)) (name : String)
       (rest : List Fat32.Component) (nm : String) (sz : Nat),
       Fat32.findEntry cwd name = some (nm, Fat32.FsTree.file sz) →
       Fat32.resolveLoop cwd (Fat32.Component.normal name :: rest) =
         (if rest.isEmpty then Except.ok (Fat32.OpenResult.fileE sz)
          else Except.error Fat32.OpenErr.invalidInput))
    ∧ (∀ (cwd : List (String × Fat32.FsTree)) (name : String)
       (rest : List Fat32.Component) (nm : String)
       (children : List (String × Fat32.FsTree)),
       Fat32.findEntry cwd name = some (nm, Fat32.FsTree.dir children) →
       Fat32.resolveLoop cwd (Fat32.Component.normal name :: rest) =
         Fat32.resolveLoop children rest)
    ∧ (∀ cwd : List (String × Fat32.FsTree),
       Fat32.resolveLoop cwd [] = Except.ok (Fat32.OpenResult.dirE cwd))
    ∧ (∀ root : List (String × Fat32.FsTree),
       Fat32.openPath root [Fat32.Component.rootDir] =
         Except.ok (Fat32.OpenResult.dirE root)) := by
  refine ⟨?_, ?_, ?_, ?_, ?_, fun cwd => rfl, fun root => rfl⟩
  · intro root comps h
    cases comps with
    | nil => rfl
    | cons c rest =>
      cases c with
      | rootDir => exact absurd rfl h
      | curDir => rfl
      | parentDir => rfl
      | normal name => rfl
  · intro root rest h
    exact Fat32.resolveLoop_nonNormal rest h root
  · intro cwd name rest h
    by_cases hrest : rest.isEmpty <;> simp [Fat32.resolveLoop, h, hrest]
  · intro cwd name rest nm sz h
    simp [Fat32.resolveLoop, h]
  · intro cwd name rest nm children h
    simp [Fat32.resolveLoop, h]

/-- Witness for C6: the resolution clauses at concrete inputs — the empty
path, a path with `..`, a missing last component, a terminal file found
case-insensitively, and the bare root. -/
theorem c6_witness :
    Fat32.openPath [] [] = Except.error Fat32.OpenErr.invalidInput ∧
    Fat32.openPath [] [Fat32.Component.rootDir, Fat32.Component.parentDir] =
      Except.error Fat32.OpenErr.invalidInput ∧
    Fat32.resolveLoop [] [Fat32.Component.normal "a"] =
      Except.error Fat32.OpenErr.notFound ∧
    Fat32.resolveLoop [("B", Fat32.FsTree.file 7)] [Fat32.Component.normal "b"] =
      Except.ok (Fat32.OpenResult.fileE 7) ∧
    Fat32.openPath [] [Fat32.Component.rootDir] =
      Except.ok (Fat32.OpenResult.dirE []) :=
  ⟨c6_open_path_resolution.1 [] [] (by decide),
   c6_open_path_resolution.2.1 [] [Fat32.Component.parentDir]
     ⟨Fat32.Component.parentDir, by simp, rfl⟩,
   c6_open_path_resolution.2.2.1 [] "a" [] rfl,
   c6_open_path_resolution.2.2.2.1 [("B", Fat32.FsTree.file 7)] "b" [] "B" 7 rfl,
   c6_open_path_resolution.2.2.2.2.2.2 []⟩

/-- Claim C8 counterexample: the claim states every seek, write, flush and
sync operation (and create/rename/remove) returns an unsupported-operation
error to the caller.  In the code all of them are `unimplemented!(..)`,
which PANICS ("not implemented ...") instead of returning: at the concrete
inputs below, `write` produces a panic outcome and not an error outcome. -/
theorem c8_counterexample_write_panics :
    Fat32.File.write Fat32.e0 [0] = Fat32.RustOutcome.panicked "not implemented" ∧
    (Fat32.File.write Fat32.e0 [0]).isErr = false := by
  exact ⟨by decide, by decide⟩

/-- Claim C8 (amended): every seek, write, flush and sync operation on the
public surface, and the filesystem's create_file, create_dir, rename and
remove, panics via `unimplemented!` for every input — none of them ever
succeeds, and none returns an error value to the caller. -/
theorem c8_unsupported_operations_panic :
    (∀ (f : Fat32.EntryM) (buf : List Nat),
       Fat32.File.write f buf = Fat32.RustOutcome.panicked "not implemented")
    ∧ (∀ f : Fat32.EntryM,
       Fat32.File.flush f = Fat32.RustOutcome.panicked "not implemented")
    ∧ (∀ (f : Fat32.EntryM) (pos : Fat32.SeekFromM),
       Fat32.File.seek f pos = Fat32.RustOutcome.panicked "not implemented: File::seek()")
    ∧ (∀ f : Fat32.EntryM,
       Fat32.File.sync f = Fat32.RustOutcome.panicked "not implemented: File::sync")
    ∧ (∀ p : List Fat32.Component,
       Fat32.VFat.createFile p =
         Fat32.RustOutcome.panicked "not implemented: read only file system")
    ∧ (∀ (p : List Fat32.Component) (parents : Bool),
       Fat32.VFat.createDir p parents =
         Fat32.RustOutcome.panicked "not implemented: read only file system")
    ∧ (∀ p q : List Fat32.Component,
       Fat32.VFat.rename p q =
         Fat32.RustOutcome.panicked "not implemented: read only file system")
    ∧ (∀ (p : List Fat32.Component) (children : Bool),
       Fat32.VFat.remove p children =
         Fat32.RustOutcome.panicked "not implemented: read only file system") :=
  ⟨fun _ _ => rfl, fun _ => rfl, fun _ _ => rfl, fun _ => rfl,
   fun _ => rfl, fun _ _ => rfl, fun _ _ => rfl, fun _ _ => rfl⟩
